import Mathlib

/-!
Verification development for the MCP connection/process-lifecycle manager of
the briefbot repository (`modules/mcp_server_manager.py`, `modules/data_structure.py`).

The Python code is shallowly embedded as follows.

* Pure data (tool descriptors, responses, sentinel strings) becomes Lean
  structures and `String` constants.
* The asynchronous, effectful methods (`MCPServerConnection.connect`,
  `disconnect`, `call_tool`, `MCPServerManager.connect_to_all_servers`,
  `call_tool`, `cleanup`) become pure state-transition functions over an
  explicit connection/manager state.  Every interaction with the outside
  world (subprocess launch, session entry, each `initialize` attempt, the
  `list_tools` reply, the transport reply of a tool call, context-manager
  exits) is supplied by an *oracle* argument describing the outcome and the
  duration (in seconds, as a natural number) of that external step.
* `asyncio.timeout(T)` around an external step whose oracle duration is `d`
  lets the step complete when `d ≤ T` and raises `TimeoutError` after
  `min d T` seconds otherwise; `asyncio.sleep(1)` contributes one second.
* Python exceptions become `Except` values; `None` becomes `Option.none`.
* For the environment-template substitution, Python strings are modelled at
  the character level (`List Char`), so that `startswith`, `endswith` and the
  slice `value[2:-1]` are `List.isPrefixOf`, `List.isSuffixOf`,
  `(·.drop 2).dropLast`.
-/

/-! ## data_structure.py -/

namespace BooleanMessage

/-- Sentinel marker `BooleanMessage.success = "tool_call_success"`. -/
def success : String := "tool_call_success"

/-- Sentinel marker `BooleanMessage.failure = "tool_call_failure"`. -/
def failure : String := "tool_call_failure"

end BooleanMessage

/-- The uniform response dictionary `{"success": bool, "content": str | None}`
built by `ToolResponse.success` / `ToolResponse.failure`. -/
structure ToolResponse where
  success : Bool
  content : Option String
  deriving DecidableEq, Repr

/-- `ToolResponse.success(content)` (the classmethod; primed because the field
projection already uses the source name). -/
def ToolResponse.success' (content : Option String) : ToolResponse :=
  { success := true, content := content }

/-- `ToolResponse.failure(content)` (the classmethod). -/
def ToolResponse.failure' (content : Option String) : ToolResponse :=
  { success := false, content := content }

/-! ## Raw tool-call replies

A reply fragment (an element of `result.content`).  `text?` is `some t` when
the Python object has a `text` attribute (the `hasattr(content, "text")`
probe), and `str` is the `str(content)` rendering used as a fallback. -/

structure ContentItem where
  text? : Option String
  str : String
  deriving DecidableEq, Repr

/-- A raw `session.call_tool` reply: an object carrying a `content` list. -/
structure CallToolResult where
  content : List ContentItem
  deriving DecidableEq, Repr

/-- Python exceptions that the embedded code raises or handles.  Transport
errors carry an identifier so that "propagated verbatim" is expressible. -/
inductive PyExn where
  | attributeError
  | runtimeError (msg : String)
  | transportError (id : Nat)
  deriving DecidableEq, Repr

/-- The fragment text used by the concatenation loop of `parse_tool_message`:
`content.text if hasattr(content, "text") else str(content)`. -/
def fragmentText (c : ContentItem) : String :=
  match c.text? with
  | some t => t
  | none => c.str

/-- The accumulation loop of `parse_tool_message`:
`contents = ""` then `contents += "\n" + fragment` for each fragment. -/
def joinedContents (l : List ContentItem) : String :=
  l.foldl (fun acc c => acc ++ ("\n" ++ fragmentText c)) ""

/-- `MCPServerManager.parse_tool_message` (lines 374-396).  `result` is
`None` or a reply object; accessing `.text` on a first fragment that has no
`text` attribute raises `AttributeError`, which we surface in `Except`. -/
def parse_tool_message (result : Option CallToolResult) :
    Except PyExn ToolResponse :=
  match result with
  | none => .ok (ToolResponse.failure' none)
  | some r =>
    match r.content with
    | [] => .ok (ToolResponse.failure' none)
    | c0 :: _ =>
      match c0.text? with
      | none => .error .attributeError
      | some t =>
        if t = BooleanMessage.failure then .ok (ToolResponse.failure' none)
        else if t = BooleanMessage.success then .ok (ToolResponse.success' none)
        else .ok (ToolResponse.success' (some (joinedContents r.content)))

/-! ## Tool normalization (connect, lines 95-106) -/

/-- A tool entry as reported by `session.list_tools()`: `description` is
`None` or a string, `inputSchema` is the (opaque, here string-rendered) JSON
schema, `none` when the attribute is absent. -/
structure RawTool where
  name : String
  description : Option String
  inputSchema : Option String
  deriving DecidableEq, Repr

/-- Python `x or dflt` on an optional string: `None` and `""` are falsy. -/
def pyOr (x : Option String) (dflt : String) : String :=
  match x with
  | none => dflt
  | some s => if s = "" then dflt else s

/-- The normalized tool dictionary appended to `self.tools` (lines 97-106). -/
structure Tool where
  name : String
  type : String
  description : String
  parameters : String
  server : String
  deriving DecidableEq, Repr

/-- One iteration of the normalization loop: builds the tool dictionary, with
the generated default description and the `or {}` schema fallback. -/
def normalizeTool (server_name : String) (t : RawTool) : Tool :=
  { name := t.name
    type := "function"
    description := pyOr t.description ("Tool from " ++ server_name ++ " server")
    parameters := pyOr t.inputSchema "\x7b\x7d"
    server := server_name }

/-! ## Environment template substitution (connect, lines 39-53) -/

/-- Characters of the template opener `"${"`. -/
def envBra : List Char := ['$', '\x7b']

/-- Characters of the template closer `"}"`. -/
def envKet : List Char := ['\x7d']

/-- One entry of the dictionary comprehension (lines 41-48):
`os.getenv(value[2:-1]) if value.startswith("${") and value.endswith("}")
else value`.  `getenv` is the process environment; the result is `none`
exactly when a template names an unset variable (Python `os.getenv` → `None`).
A non-template value is passed through literally (`some v`). -/
def resolveEnvValue (getenv : List Char → Option (List Char)) (v : List Char) :
    Option (List Char) :=
  if envBra.isPrefixOf v && envKet.isSuffixOf v then
    getenv ((v.drop 2).dropLast)
  else
    some v

/-- The whole `resolved_env` dictionary comprehension over `raw_env`. -/
def resolveEnv (getenv : List Char → Option (List Char))
    (raw : List (List Char × List Char)) : List (List Char × Option (List Char)) :=
  raw.map (fun p => (p.1, resolveEnvValue getenv p.2))

/-! ## Connection state -/

/-- The mutable fields of `MCPServerConnection`.  Reference-valued fields
(`session`, `_stdio_context`, `_session_context`, `_read_stream`,
`_write_stream`) are modelled by whether they are non-`None`. -/
structure ConnState where
  session : Bool
  tools : List Tool
  connected : Bool
  stdioCtx : Bool
  sessionCtx : Bool
  readStream : Bool
  writeStream : Bool
  deriving DecidableEq, Repr

/-- The state built by `MCPServerConnection.__init__`. -/
def ConnState.init : ConnState :=
  { session := false, tools := [], connected := false, stdioCtx := false
    sessionCtx := false, readStream := false, writeStream := false }

/-- The `is_connected` property: `self._connected and self.session is not None`. -/
def ConnState.is_connected (c : ConnState) : Bool :=
  c.connected && c.session

/-- `MCPServerConnection.disconnect` (lines 121-171) as a state transition.
Exceptions raised by the two `__aexit__` calls are swallowed by the inner
`try/except/finally` blocks, so the resulting state does not depend on them:
each context's references are cleared in its `finally` whenever that context
was present, and the tool list is cleared at the end. -/
def disconnect (c : ConnState) : ConnState :=
  if !c.connected && !c.sessionCtx && !c.stdioCtx then c
  else
    let c1 := { c with connected := false }
    let c2 :=
      if c1.sessionCtx then { c1 with sessionCtx := false, session := false } else c1
    let c3 :=
      if c2.stdioCtx then
        { c2 with stdioCtx := false, readStream := false, writeStream := false }
      else c2
    { c3 with tools := [] }

/-! ## The connect sequence -/

/-- Outcome of one external (awaited) step: it either completes after `dur`
seconds with a value, or raises after `dur` seconds. -/
inductive Step (α : Type) where
  | ok (dur : Nat) (val : α)
  | err (dur : Nat)
  deriving Repr

/-- The duration an external step would run unimpeded. -/
def Step.dur {α : Type} : Step α → Nat
  | .ok d _ => d
  | .err d => d

/-- Oracle describing the external world during one `connect` call:
the `stdio_client` entry, the `ClientSession` entry, each `initialize`
attempt, the `list_tools` reply, and the durations of the two context exits
used by `disconnect` on the failure path. -/
structure ConnectOracle where
  launch : Step Unit
  sessionEnter : Step Unit
  init : Nat → Step Unit
  listTools : Step (List RawTool)
  sessionExitDur : Nat
  stdioExitDur : Nat

/-- Whether `initialize` attempt `i` fails: the step raises on its own, or
runs longer than the `asyncio.timeout(10)` window around it. -/
def initAttemptFails (o : ConnectOracle) (i : Nat) : Bool :=
  match o.init i with
  | .ok d _ => decide (10 < d)
  | .err _ => true

/-- Seconds spent inside `asyncio.timeout(10)` on attempt `i`: the attempt's
own duration, cut off at the 10-second window. -/
def initAttemptDur (o : ConnectOracle) (i : Nat) : Nat :=
  min (o.init i).dur 10

/-- The retry loop of lines 72-84 (`for attempt in range(max_retries)`),
with fuel equal to the remaining iterations.  Returns
`(success, elapsed, attempts made)`; `elapsed` includes the one-second
`asyncio.sleep(1)` backoff after each non-final failed attempt.  Exhausting
the range without a break (possible only when `maxRetries = 0`) falls
through to the rest of `connect`, hence counts as success. -/
def initLoopAux (o : ConnectOracle) (maxRetries : Nat) :
    Nat → Nat → Nat → Bool × Nat × Nat
  | 0, i, elapsed => (true, elapsed, i)
  | fuel + 1, i, elapsed =>
    if initAttemptFails o i then
      if i < maxRetries - 1 then
        initLoopAux o maxRetries fuel (i + 1) (elapsed + initAttemptDur o i + 1)
      else (false, elapsed + initAttemptDur o i, i + 1)
    else (true, elapsed + initAttemptDur o i, i + 1)

/-- The initialize-with-retries block with the source's `max_retries = 3`. -/
def initWithRetries (o : ConnectOracle) : Bool × Nat × Nat :=
  initLoopAux o 3 3 0 0

/-- Seconds spent by `disconnect` in the two `__aexit__` awaits from state `c`. -/
def disconnectDur (c : ConnState) (o : ConnectOracle) : Nat :=
  if !c.connected && !c.sessionCtx && !c.stdioCtx then 0
  else
    (if c.sessionCtx then o.sessionExitDur else 0) +
    (if c.stdioCtx then o.stdioExitDur else 0)

/-- The launch spec for one server (`command`, `args`, `env`), as read from
the configuration.  `env` values are raw template strings (character lists). -/
structure ServerSpec where
  command : String
  args : List String
  env : List (List Char × List Char)

/-- Result of one `MCPServerConnection.connect` call: the returned boolean,
the final connection state, the seconds the caller waited, how many
`initialize` attempts ran, and the environment mapping handed to
`StdioServerParameters` (hence to the launched subprocess). -/
structure ConnectResult where
  success : Bool
  state : ConnState
  elapsed : Nat
  initAttempts : Nat
  launchEnv : List (List Char × Option (List Char))

/-- `MCPServerConnection.connect` (lines 34-119) on a freshly constructed
connection.  The outer `try/except` turns any raised step into
`await self.disconnect(); return False`; the tool-discovery step (lines
86-110) has its own `try/except`, so its failure is non-fatal and leaves the
tool list as initialized (empty).  No step of the sequence is wrapped in any
timeout other than the per-attempt 10-second initialize window and the
8-second `list_tools` window. -/
def connect (getenv : List Char → Option (List Char)) (server_name : String)
    (spec : ServerSpec) (o : ConnectOracle) : ConnectResult :=
  let resolved_env := resolveEnv getenv spec.env
  let c1 := { ConnState.init with stdioCtx := true }
  match o.launch with
  | .err d =>
    { success := false, state := disconnect c1, elapsed := d + disconnectDur c1 o
      initAttempts := 0, launchEnv := resolved_env }
  | .ok dLaunch _ =>
    let c2 := { c1 with readStream := true, writeStream := true }
    let c3 := { c2 with sessionCtx := true }
    match o.sessionEnter with
    | .err d =>
      { success := false, state := disconnect c3
        elapsed := dLaunch + d + disconnectDur c3 o
        initAttempts := 0, launchEnv := resolved_env }
    | .ok dSession _ =>
      let c4 := { c3 with session := true }
      match initWithRetries o with
      | (false, dInit, att) =>
        { success := false, state := disconnect c4
          elapsed := dLaunch + dSession + dInit + disconnectDur c4 o
          initAttempts := att, launchEnv := resolved_env }
      | (true, dInit, att) =>
        let disc : ConnState × Nat :=
          match o.listTools with
          | .ok d tools =>
            if d ≤ 8 then ({ c4 with tools := tools.map (normalizeTool server_name) }, d)
            else (c4, 8)
          | .err d => (c4, min d 8)
        { success := true, state := { disc.1 with connected := true }
          elapsed := dLaunch + dSession + dInit + disc.2
          initAttempts := att, launchEnv := resolved_env }

/-! ## Per-connection tool calls -/

/-- Outcome of the single `session.call_tool` transport exchange. -/
inductive TransportOutcome where
  | ok (r : Option CallToolResult)
  | raise (e : PyExn)

/-- `MCPServerConnection.call_tool` (lines 173-189): raises `RuntimeError`
when not connected; otherwise performs the transport exchange once and
either returns the raw reply or re-raises the transport error unchanged
(the `except` clause only logs and then `raise`s). -/
def connection_call_tool (c : ConnState) (outcome : TransportOutcome) :
    Except PyExn (Option CallToolResult) :=
  if !(c.connected && c.session) then
    .error (.runtimeError "not connected")
  else
    match outcome with
    | .raise e => .error e
    | .ok r => .ok r

/-! ## The manager -/

/-- The mutable fields of `MCPServerManager`.  `connections` is the Python
dict (insertion-ordered association list with unique keys), `all_tools` the
aggregated catalog list. -/
structure ManagerState where
  connections : List (String × ConnState)
  all_tools : List Tool
  cleanup_done : Bool
  deriving Repr

/-- The state built by `MCPServerManager.__init__`. -/
def ManagerState.init : ManagerState :=
  { connections := [], all_tools := [], cleanup_done := false }

/-- Python dict assignment `d[k] = v` on an insertion-ordered dict. -/
def dictSet {α : Type} (d : List (String × α)) (k : String) (v : α) :
    List (String × α) :=
  if d.any (fun p => p.1 = k) then d.map (fun p => if p.1 = k then (k, v) else p)
  else d ++ [(k, v)]

/-- Python dict lookup `d[k]` / `k in d`. -/
def dictGet? {α : Type} (d : List (String × α)) (k : String) : Option α :=
  (d.find? (fun p => p.1 = k)).map (fun p => p.2)

/-- Result of `connect_to_all_servers`: the new manager state, the returned
boolean, and the names for which a `connection.connect()` attempt ran, in
order. -/
structure ConnectAllResult where
  state : ManagerState
  retVal : Bool
  attempts : List String

/-- The `for server_name, server_config in config.items()` loop of
`connect_to_all_servers` (lines 225-247): threads the manager state and the
`successful_connections` counter, recording each attempted server name.  A
successful connection is registered and its tools extend the catalog; a
failed one only gets a redundant local `disconnect()`.  `connect` never
raises (its outer `try` returns `False`), so the loop's `except` arm is
unreachable. -/
def connectAllLoop (getenv : List Char → Option (List Char)) :
    ManagerState → Nat → List (String × ServerSpec × ConnectOracle) →
    ManagerState × Nat × List String
  | st, succ, [] => (st, succ, [])
  | st, succ, (server_name, spec, o) :: rest =>
    let r := connect getenv server_name spec o
    let st' :=
      if r.success then
        { st with connections := dictSet st.connections server_name r.state
                  all_tools := st.all_tools ++ r.state.tools }
      else st
    let res := connectAllLoop getenv st' (if r.success then succ + 1 else succ) rest
    (res.1, res.2.1, server_name :: res.2.2)

/-- `MCPServerManager.connect_to_all_servers` (lines 211-256).  `config` is
the loaded `mcpServers` mapping together with each server's oracle; an empty
config returns `False` immediately (line 215-217), and otherwise the return
value is `successful_connections > 0` (line 256) — a boolean, not a count. -/
def connect_to_all_servers (getenv : List Char → Option (List Char))
    (st : ManagerState) (config : List (String × ServerSpec × ConnectOracle)) :
    ConnectAllResult :=
  match config with
  | [] => { state := st, retVal := false, attempts := [] }
  | _ :: _ =>
    let res := connectAllLoop getenv st 0 config
    { state := res.1, retVal := decide (0 < res.2.1), attempts := res.2.2 }

/-- Result of `MCPServerManager.call_tool`: the value returned (or the
exception propagated, which the source never does — every raise is caught),
plus the transport invocations `(server, tool)` performed on registered
connections. -/
structure CallToolRun where
  result : Except PyExn (Option ToolResponse)
  calls : List (String × String)

/-- `MCPServerManager.call_tool` (lines 279-313): linear catalog search for
the tool name (first match wins); `None` when absent, when the owning server
is not in the connection table, or when the owning connection is no longer
live; otherwise one delegated transport call whose raw reply runs through
`parse_tool_message`, with any exception from the delegation or the parse
caught and turned into `ToolResponse.failure(None)`. -/
def manager_call_tool (st : ManagerState) (tOracle : String → TransportOutcome)
    (tool_name : String) (arguments : Option (List (String × String))) :
    CallToolRun :=
  let _args := match arguments with | none => [] | some a => a
  match st.all_tools.find? (fun t => t.name = tool_name) with
  | none => { result := .ok none, calls := [] }
  | some tool_info =>
    match dictGet? st.connections tool_info.server with
    | none => { result := .ok none, calls := [] }
    | some conn =>
      if !conn.is_connected then { result := .ok none, calls := [] }
      else
        match connection_call_tool conn (tOracle tool_info.server) with
        | .error _ =>
          { result := .ok (some (ToolResponse.failure' none))
            calls := [(tool_info.server, tool_name)] }
        | .ok raw =>
          match parse_tool_message raw with
          | .error _ =>
            { result := .ok (some (ToolResponse.failure' none))
              calls := [(tool_info.server, tool_name)] }
          | .ok resp =>
            { result := .ok (some resp), calls := [(tool_info.server, tool_name)] }

/-! ## Cleanup -/

/-- How the `await connection.disconnect()` inside `cleanup` ends: it runs to
completion (`disconnect` swallows all `__aexit__` errors internally), or the
await itself is cancelled, triggering the forced reference cleanup of lines
346-352. -/
inductive TeardownRun where
  | completes
  | cancelledAwait

/-- The forced cleanup of lines 348-352: clears `_connected`,
`_session_context`, `_stdio_context`, `session` and the tool list — but not
the stream references. -/
def forcedClear (c : ConnState) : ConnState :=
  { c with connected := false, sessionCtx := false, stdioCtx := false
           session := false, tools := [] }

/-- The guard of line 342:
`connection.is_connected or connection._session_context or connection._stdio_context`. -/
def cleanupGuard (c : ConnState) : Bool :=
  c.is_connected || c.sessionCtx || c.stdioCtx

/-- Result of `MCPServerManager.cleanup`: the new manager state, the final
states of the connection objects that were registered when it was called,
and the names for which a disconnect was attempted. -/
structure CleanupRun where
  state : ManagerState
  finalConns : List (String × ConnState)
  disconnected : List String

/-- `MCPServerManager.cleanup` (lines 332-359): an early return when
`_cleanup_done` is already set; otherwise the flag is set, every registered
connection passing the line-342 guard is disconnected independently (a
cancelled await falls back to the forced reference cleanup, an exception is
only logged), and finally the connection table and the catalog are cleared. -/
def cleanup (st : ManagerState) (o : String → TeardownRun) : CleanupRun :=
  if st.cleanup_done then
    { state := st, finalConns := st.connections, disconnected := [] }
  else
    { state := { connections := [], all_tools := [], cleanup_done := true }
      finalConns := st.connections.map (fun p =>
        if cleanupGuard p.2 then
          match o p.1 with
          | .completes => (p.1, disconnect p.2)
          | .cancelledAwait => (p.1, forcedClear p.2)
        else p)
      disconnected := (st.connections.filter (fun p => cleanupGuard p.2)).map
        (fun p => p.1) }

/-! ## Definitions taken from the specification's words (for claim checks) -/

/-- Python's `bool` is an `int` subclass with `True == 1`, `False == 0`;
used to compare the boolean actually returned by `connect_to_all_servers`
with the count the specification says it returns. -/
def pyBoolToInt : Bool → Nat
  | false => 0
  | true => 1

/-- The result-normalizer mapping exactly as the claim states it: absent or
empty replies give Failure/empty; a reply whose SOLE fragment is the failure
(resp. success) sentinel gives Failure/empty (resp. Success/empty); any other
reply gives Success with all fragment texts joined by newlines. -/
def resultAdapterClaim (result : Option CallToolResult) : Option ToolResponse :=
  match result with
  | none => some (ToolResponse.failure' none)
  | some r =>
    if r.content = [] then some (ToolResponse.failure' none)
    else if r.content.map fragmentText = [BooleanMessage.failure] then
      some (ToolResponse.failure' none)
    else if r.content.map fragmentText = [BooleanMessage.success] then
      some (ToolResponse.success' none)
    else
      some (ToolResponse.success'
        (some (String.intercalate "\n" (r.content.map fragmentText))))

/-- The result-normalizer mapping as amended: the sentinel comparison looks
only at the FIRST fragment (whatever follows is ignored), a first fragment
without a `text` attribute raises, and the payload of the general case is the
concatenation in which every fragment — the first included — is preceded by a
newline. -/
def resultAdapterAmended (result : Option CallToolResult) :
    Except PyExn ToolResponse :=
  match result with
  | none => .ok (ToolResponse.failure' none)
  | some r =>
    match r.content.head? with
    | none => .ok (ToolResponse.failure' none)
    | some c0 =>
      match c0.text? with
      | none => .error .attributeError
      | some t =>
        if t = BooleanMessage.failure then .ok (ToolResponse.failure' none)
        else if t = BooleanMessage.success then .ok (ToolResponse.success' none)
        else .ok (ToolResponse.success'
          (some (String.join (r.content.map (fun c => "\n" ++ fragmentText c)))))

/-! ## Shared concrete inputs for witnesses and counterexamples -/

/-- A reply fragment that carries a `text` attribute. -/
def mkTextItem (t : String) : ContentItem := { text? := some t, str := t }

/-- Empty process environment. -/
def g0 : List Char → Option (List Char) := fun _ => none

/-- A minimal launch spec. -/
def spec0 : ServerSpec := { command := "cmd", args := [], env := [] }

/-- Oracle of a server whose every step succeeds immediately and which
reports no tools. -/
def exOracleOk : ConnectOracle :=
  { launch := .ok 0 (), sessionEnter := .ok 0 (), init := fun _ => .ok 0 ()
    listTools := .ok 0 [], sessionExitDur := 0, stdioExitDur := 0 }

/-- Oracle of a server whose first two initialize attempts hang past the
10-second window, whose third succeeds after 9 seconds, and whose tool
listing takes the full 8 seconds: a successful connect lasting 39 seconds. -/
def exOracleSlow : ConnectOracle :=
  { launch := .ok 0 (), sessionEnter := .ok 0 ()
    init := fun i => if i < 2 then .ok 20 () else .ok 9 ()
    listTools := .ok 8 [], sessionExitDur := 0, stdioExitDur := 0 }

/-- Oracle of a server whose every initialize attempt raises after 2 seconds. -/
def exOracleInitFail : ConnectOracle :=
  { launch := .ok 0 (), sessionEnter := .ok 0 (), init := fun _ => .err 2
    listTools := .ok 0 [], sessionExitDur := 3, stdioExitDur := 4 }

/-- Oracle of a server that connects fine but whose tool listing raises. -/
def exOracleDiscFail : ConnectOracle :=
  { launch := .ok 0 (), sessionEnter := .ok 0 (), init := fun _ => .ok 0 ()
    listTools := .err 1, sessionExitDur := 0, stdioExitDur := 0 }

/-- A live connection state owning all its resources. -/
def exConnLive : ConnState :=
  { session := true, tools := [], connected := true, stdioCtx := true
    sessionCtx := true, readStream := true, writeStream := true }

/-- A catalog entry owned by server `"s"`. -/
def exTool : Tool :=
  { name := "t", type := "function", description := "d", parameters := "\x7b\x7d"
    server := "s" }

/-- A healthy one-server manager exposing the tool `"t"`. -/
def exManager : ManagerState :=
  { connections := [("s", exConnLive)], all_tools := [exTool], cleanup_done := false }

/-! ## Helper lemmas -/

/-- The source's `+=` loop equals a map-then-join of the newline-prefixed
fragments. -/
theorem joinedContents_eq_join (l : List ContentItem) :
    joinedContents l = String.join (l.map (fun c => "\n" ++ fragmentText c)) := by
  simp [joinedContents, String.join, List.foldl_map]

/-! ## C7 — result normalization -/

/-- C7: the claim's mapping disagrees with `parse_tool_message` on two
concrete replies.  A reply whose FIRST (but not sole) fragment is the failure
sentinel is normalized to Failure/empty although the claim prescribes Success
with a joined payload; and a plain two-fragment reply is normalized with a
newline BEFORE every fragment (`"\na\nb"`), not the plain newline-join
(`"a\nb"`) the claim prescribes. -/
theorem C7_counterexample :
    resultAdapterClaim (some { content := [mkTextItem "tool_call_failure", mkTextItem "x"] })
      = some (ToolResponse.success' (some "tool_call_failure\nx"))
    ∧ parse_tool_message (some { content := [mkTextItem "tool_call_failure", mkTextItem "x"] })
      = .ok (ToolResponse.failure' none)
    ∧ resultAdapterClaim (some { content := [mkTextItem "a", mkTextItem "b"] })
      = some (ToolResponse.success' (some "a\nb"))
    ∧ parse_tool_message (some { content := [mkTextItem "a", mkTextItem "b"] })
      = .ok (ToolResponse.success' (some "\na\nb")) := by
  refine ⟨by decide, by rfl, by decide, by rfl⟩

/-- C7 (amended): `parse_tool_message` maps an absent or fragment-less reply
to Failure/empty; a reply whose FIRST fragment's text equals the failure
(resp. success) sentinel — regardless of any further fragments — to
Failure/empty (resp. Success/empty); and any other reply to Success whose
payload concatenates all fragments with a newline put before each of them
(so the payload starts with a newline). -/
theorem C7_theorem (result : Option CallToolResult) :
    parse_tool_message result = resultAdapterAmended result := by
  match result with
  | none => rfl
  | some r =>
    obtain ⟨content⟩ := r
    cases content with
    | nil => rfl
    | cons c0 rest =>
      cases hc : c0.text? with
      | none => simp [parse_tool_message, resultAdapterAmended, hc]
      | some t =>
        simp [parse_tool_message, resultAdapterAmended, hc, joinedContents_eq_join]

/-! ## C2 — unknown tool names -/

/-- C2: calling the manager's `call_tool` with a name absent from the
aggregated catalog returns the not-found outcome (`None`, never an ordinary
tool response and never an uncaught exception) and performs no transport
invocation on any registered connection. -/
theorem C2_theorem (st : ManagerState) (tOracle : String → TransportOutcome)
    (tool_name : String) (arguments : Option (List (String × String)))
    (h : ∀ t ∈ st.all_tools, t.name ≠ tool_name) :
    manager_call_tool st tOracle tool_name arguments =
      { result := .ok none, calls := [] } := by
  have hfind : st.all_tools.find? (fun t => t.name = tool_name) = none := by
    apply List.find?_eq_none.mpr
    intro t ht
    simpa using h t ht
  simp [manager_call_tool, hfind]

/-- Witness for C2 on the healthy one-server manager: `"missing"` is in no
catalog entry, the call returns `None` and touches no connection. -/
theorem C2_theorem_witness :
    manager_call_tool exManager (fun _ => .ok none) "missing" none =
      { result := .ok none, calls := [] } :=
  C2_theorem exManager (fun _ => .ok none) "missing" none (by decide)

/-! ## C3 — transport errors during a call -/

/-- C3: on the healthy one-server manager, a transport error raised by the
underlying `session.call_tool` is re-raised verbatim by the CONNECTION's
`call_tool`, but the MANAGER's `call_tool` does not let its caller observe
it: it catches the error and returns the substituted value
`ToolResponse.failure(None)`. -/
theorem C3_counterexample :
    connection_call_tool exConnLive (.raise (.transportError 7))
      = .error (.transportError 7)
    ∧ (manager_call_tool exManager (fun _ => .raise (.transportError 7)) "t" none).result
      = .ok (some (ToolResponse.failure' none))
    ∧ (manager_call_tool exManager (fun _ => .raise (.transportError 7)) "t" none).result
      ≠ .error (.transportError 7) := by
  refine ⟨by rfl, by rfl, by intro h; exact Except.noConfusion h⟩

/-- C3 (amended): when a connected tool's transport call raises, the
connection-level `call_tool` propagates exactly that error to the manager,
which performs no retry (exactly one transport invocation happens) and
returns `ToolResponse.failure(None)` to its own caller instead of the
original error. -/
theorem C3_theorem (st : ManagerState) (tOracle : String → TransportOutcome)
    (tool_name : String) (arguments : Option (List (String × String)))
    (tool_info : Tool) (conn : ConnState) (e : PyExn)
    (hfind : st.all_tools.find? (fun t => t.name = tool_name) = some tool_info)
    (hconn : dictGet? st.connections tool_info.server = some conn)
    (hlive : conn.is_connected = true)
    (hraise : tOracle tool_info.server = .raise e) :
    connection_call_tool conn (tOracle tool_info.server) = .error e
    ∧ (manager_call_tool st tOracle tool_name arguments).result
      = .ok (some (ToolResponse.failure' none))
    ∧ (manager_call_tool st tOracle tool_name arguments).calls
      = [(tool_info.server, tool_name)] := by
  have hcc : connection_call_tool conn (tOracle tool_info.server) = .error e := by
    have hb : (conn.connected && conn.session) = true := hlive
    simp [connection_call_tool, hb, hraise]
  refine ⟨hcc, ?_, ?_⟩ <;>
    simp [manager_call_tool, hfind, hconn, hlive, hcc]

/-- Witness for C3's amended statement on the healthy one-server manager. -/
theorem C3_theorem_witness :
    (manager_call_tool exManager (fun _ => .raise (.transportError 7)) "t" none).result
      = .ok (some (ToolResponse.failure' none))
    ∧ (manager_call_tool exManager (fun _ => .raise (.transportError 7)) "t" none).calls
      = [("s", "t")] := by
  have h := C3_theorem exManager (fun _ => .raise (.transportError 7)) "t" none
    exTool exConnLive (.transportError 7) (by rfl) (by rfl) (by rfl) (by rfl)
  exact ⟨h.2.1, h.2.2⟩

/-! ## C9 — environment template substitution -/

/-- A value of the exact template form decomposes the guard: this is the key
reconstruction showing the source's `startswith`/`endswith` test recognizes
exactly the strings of the form `"${" ++ NAME ++ "}"`. -/
theorem envGuard_iff (v : List Char) :
    (envBra.isPrefixOf v && envKet.isSuffixOf v) = true ↔
      ∃ n : List Char, v = envBra ++ n ++ envKet := by
  constructor
  · intro hg
    rw [Bool.and_eq_true] at hg
    obtain ⟨hp, hs⟩ := hg
    rw [ List.isPrefixOf_iff_prefix] at hp
    rw [ List.isSuffixOf_iff_suffix] at hs
    obtain ⟨t, ht⟩ := hp
    obtain ⟨w, hw⟩ := hs
    have hlast : v.getLast? = some '\x7d' := by
      rw [← hw, envKet]
      exact List.getLast?_concat w
    cases t with
    | nil =>
      rw [← ht] at hlast
      simp [envBra] at hlast
    | cons c t' =>
      have htl : (c :: t').getLast? = some '\x7d' := by
        rw [← ht] at hlast
        simpa [envBra] using hlast
      have hsplit : (c :: t').dropLast ++ ['\x7d'] = c :: t' :=
        List.dropLast_append_getLast? _ htl
      refine ⟨(c :: t').dropLast, ?_⟩
      rw [← ht, ← hsplit, envKet]
      simp
  · rintro ⟨n, rfl⟩
    have hp : envBra.isPrefixOf (envBra ++ n ++ envKet) = true := by
      simp [envBra, envKet, List.isPrefixOf]
    have hs : envKet.isSuffixOf (envBra ++ n ++ envKet) = true := by
      rw [ List.isSuffixOf_iff_suffix]
      exact ⟨envBra ++ n, by simp⟩
    rw [Bool.and_eq_true]
    exact ⟨hp, hs⟩

/-- C9: at connect time the subprocess is launched with
`resolveEnv getenv spec.env`; a value of the exact form `${NAME}` is replaced
by the process environment variable `NAME` (so `none`, i.e. absent, when
`NAME` is unset), and every other value is passed through literally. -/
theorem C9_theorem (getenv : List Char → Option (List Char))
    (server_name : String) (spec : ServerSpec) (o : ConnectOracle) :
    (connect getenv server_name spec o).launchEnv = resolveEnv getenv spec.env
    ∧ (∀ n : List Char, resolveEnvValue getenv (envBra ++ n ++ envKet) = getenv n)
    ∧ (∀ v : List Char, (¬ ∃ n : List Char, v = envBra ++ n ++ envKet) →
        resolveEnvValue getenv v = some v) := by
  refine ⟨?_, ?_, ?_⟩
  · unfold connect
    cases o.launch with
    | err d => rfl
    | ok d u =>
      cases o.sessionEnter with
      | err d2 => rfl
      | ok d2 u2 =>
        rcases h : initWithRetries o with ⟨b, di, att⟩
        cases b with
        | false => rfl
        | true => cases o.listTools <;> rfl
  · intro n
    have hg : (envBra.isPrefixOf (envBra ++ n ++ envKet) &&
        envKet.isSuffixOf (envBra ++ n ++ envKet)) = true :=
      (envGuard_iff _).mpr ⟨n, rfl⟩
    have hmid : (((envBra ++ n ++ envKet).drop 2).dropLast) = n := by
      simp [envBra, envKet, List.dropLast_concat]
    rw [resolveEnvValue, if_pos hg, hmid]
  · intro v hnot
    have hg : (envBra.isPrefixOf v && envKet.isSuffixOf v) ≠ true := by
      intro hg
      exact hnot ((envGuard_iff v).mp hg)
    rw [resolveEnvValue, if_neg hg]

/-- The process environment `MY_TOKEN=abc` used in the witness. -/
def exEnvName : List Char := ['M', 'Y', '_', 'T', 'O', 'K', 'E', 'N']

/-- Witness environment lookup: only `MY_TOKEN` is set, to `abc`. -/
def gEx : List Char → Option (List Char) :=
  fun n => if n = exEnvName then some ['a', 'b', 'c'] else none

/-- Witness for C9: `${MY_TOKEN}` resolves to `abc`, `${UNSET}` to absent,
and a non-template value passes through unchanged. -/
theorem C9_theorem_witness :
    resolveEnvValue gEx (envBra ++ exEnvName ++ envKet) = some ['a', 'b', 'c']
    ∧ resolveEnvValue gEx (envBra ++ ['U'] ++ envKet) = none
    ∧ resolveEnvValue gEx ['p', 'l', 'a', 'i', 'n'] = some ['p', 'l', 'a', 'i', 'n'] := by
  have h := C9_theorem gEx "s" spec0 exOracleOk
  refine ⟨?_, ?_, ?_⟩
  · rw [h.2.1 exEnvName]; rfl
  · rw [h.2.1 ['U']]; rfl
  · refine h.2.2 ['p', 'l', 'a', 'i', 'n'] ?_
    rintro ⟨n, hn⟩
    simp [envBra, envKet] at hn

/-! ## C4 — non-fatal tool discovery -/

/-- Whether the `list_tools` step fails: it raises on its own or overruns the
8-second `asyncio.timeout(8)` window. -/
def discoveryFails (o : ConnectOracle) : Bool :=
  match o.listTools with
  | .ok d _ => decide (8 < d)
  | .err _ => true

/-- C4: when the launch, session entry and handshake succeed but the
tool-discovery step fails, `connect` still returns `True`, the connection
ends `Connected` with an empty tool list, and a manager connecting to just
this server registers it and reports success. -/
theorem C4_theorem (getenv : List Char → Option (List Char))
    (server_name : String) (spec : ServerSpec) (o : ConnectOracle) (dl ds : Nat)
    (hl : o.launch = .ok dl ()) (hs : o.sessionEnter = .ok ds ())
    (hinit : (initWithRetries o).1 = true)
    (hdisc : discoveryFails o = true) :
    (connect getenv server_name spec o).success = true
    ∧ (connect getenv server_name spec o).state.connected = true
    ∧ (connect getenv server_name spec o).state.tools = []
    ∧ (connect_to_all_servers getenv ManagerState.init
        [(server_name, spec, o)]).retVal = true
    ∧ (connect_to_all_servers getenv ManagerState.init
        [(server_name, spec, o)]).state.connections
      = [(server_name, (connect getenv server_name spec o).state)] := by
  rcases h3 : initWithRetries o with ⟨b, di, att⟩
  rw [h3] at hinit
  subst hinit
  cases hlt : o.listTools with
  | ok d tools =>
    have hd : ¬ d ≤ 8 := by
      have := hdisc
      simp [discoveryFails, hlt] at this
      omega
    refine ⟨?_, ?_, ?_, ?_, ?_⟩ <;>
      simp [connect, connect_to_all_servers, connectAllLoop, dictSet,
        ManagerState.init, ConnState.init, hl, hs, h3, hlt, hd]
  | err d =>
    refine ⟨?_, ?_, ?_, ?_, ?_⟩ <;>
      simp [connect, connect_to_all_servers, connectAllLoop, dictSet,
        ManagerState.init, ConnState.init, hl, hs, h3, hlt]

/-- Witness for C4 on the oracle whose `list_tools` raises. -/
theorem C4_theorem_witness :
    (connect g0 "s" spec0 exOracleDiscFail).success = true
    ∧ (connect g0 "s" spec0 exOracleDiscFail).state.connected = true
    ∧ (connect g0 "s" spec0 exOracleDiscFail).state.tools = [] := by
  have h := C4_theorem g0 "s" spec0 exOracleDiscFail 0 0 rfl rfl rfl rfl
  exact ⟨h.1, h.2.1, h.2.2.1⟩

/-! ## C6 — handshake retry policy -/

/-- The retry loop never makes more attempts than it has fuel for. -/
theorem initLoopAux_attempts_le (o : ConnectOracle) (m : Nat) :
    ∀ fuel i e, (initLoopAux o m fuel i e).2.2 ≤ i + fuel := by
  intro fuel
  induction fuel with
  | zero => intro i e; simp [initLoopAux]
  | succ f ih =>
    intro i e
    simp only [initLoopAux]
    split
    · split
      · exact le_trans (ih (i + 1) _) (by omega)
      · simp
    · simp

/-- C6: when all three initialize attempts fail, `connect` fails, the
connection never becomes `Connected` and ends exactly in the fresh
(all-released) state; exactly 3 attempts were made, each attempt occupied at
most its 10-second window, and the elapsed time shows the 1-second backoff
between consecutive attempts.  In general the loop makes at most 3 attempts,
a failed first attempt forces a second, and failed first and second attempts
force a third. -/
theorem C6_theorem (getenv : List Char → Option (List Char))
    (server_name : String) (spec : ServerSpec) (o : ConnectOracle) (dl ds : Nat)
    (hl : o.launch = .ok dl ()) (hs : o.sessionEnter = .ok ds ())
    (h0 : initAttemptFails o 0 = true) (h1 : initAttemptFails o 1 = true)
    (h2 : initAttemptFails o 2 = true) :
    (connect getenv server_name spec o).success = false
    ∧ (connect getenv server_name spec o).state = ConnState.init
    ∧ (connect getenv server_name spec o).initAttempts = 3
    ∧ (connect getenv server_name spec o).elapsed
        = dl + ds
          + (initAttemptDur o 0 + 1 + initAttemptDur o 1 + 1 + initAttemptDur o 2)
          + (o.sessionExitDur + o.stdioExitDur)
    ∧ (∀ i, initAttemptDur o i ≤ 10)
    ∧ (∀ o' : ConnectOracle, (initWithRetries o').2.2 ≤ 3)
    ∧ (∀ o' : ConnectOracle, initAttemptFails o' 0 = true →
        2 ≤ (initWithRetries o').2.2)
    ∧ (∀ o' : ConnectOracle, initAttemptFails o' 0 = true →
        initAttemptFails o' 1 = true → (initWithRetries o').2.2 = 3) := by
  have hloop : initWithRetries o =
      (false, initAttemptDur o 0 + 1 + (initAttemptDur o 1 + 1) + initAttemptDur o 2, 3) := by
    simp [initWithRetries, initLoopAux, h0, h1, h2]
    omega
  refine ⟨?_, ?_, ?_, ?_, ?_, ?_, ?_, ?_⟩
  · simp [connect, hl, hs, hloop]
  · simp [connect, hl, hs, hloop, disconnect, ConnState.init]
  · simp [connect, hl, hs, hloop]
  · simp [connect, hl, hs, hloop, disconnectDur]
    omega
  · exact fun i => Nat.min_le_right _ _
  · exact fun o' => initLoopAux_attempts_le o' 3 3 0 0
  · intro o' ha
    cases hb : initAttemptFails o' 1 <;> cases hc : initAttemptFails o' 2 <;>
      simp [initWithRetries, initLoopAux, ha, hb, hc]
  · intro o' ha hb
    cases hc : initAttemptFails o' 2 <;>
      simp [initWithRetries, initLoopAux, ha, hb, hc]

/-- Witness for C6 on the oracle whose every initialize attempt raises. -/
theorem C6_theorem_witness :
    (connect g0 "s" spec0 exOracleInitFail).success = false
    ∧ (connect g0 "s" spec0 exOracleInitFail).state = ConnState.init
    ∧ (connect g0 "s" spec0 exOracleInitFail).initAttempts = 3 := by
  have h := C6_theorem g0 "s" spec0 exOracleInitFail 0 0 rfl rfl rfl rfl rfl
  exact ⟨h.1, h.2.1, h.2.2.1⟩

/-! ## C5 — connect timing -/

/-- Elapsed-time bound for the retry loop: with `fuel` remaining attempts
(and the loop invariant `i + fuel = m`), at most `10` seconds per attempt
plus a 1-second backoff after each non-final attempt are spent. -/
theorem initLoopAux_elapsed_le (o : ConnectOracle) (m : Nat) :
    ∀ fuel i e, i + fuel = m →
      (initLoopAux o m fuel i e).2.1 ≤ e + fuel * 10 + (fuel - 1) := by
  intro fuel
  induction fuel with
  | zero => intro i e h; simp [initLoopAux]
  | succ f ih =>
    intro i e h
    have hd : initAttemptDur o i ≤ 10 := Nat.min_le_right _ _
    simp only [initLoopAux]
    split
    · split
      · have hrec := ih (i + 1) (e + initAttemptDur o i + 1) (by omega)
        have hf1 : 1 ≤ f := by omega
        omega
      · dsimp only
        omega
    · dsimp only
      omega

/-- C5: the claim's overall 15-second connect bound does not exist.  A server
whose first two initialize attempts overrun their 10-second windows, whose
third succeeds after 9 seconds and whose tool listing takes 8 seconds keeps
the caller waiting 39 seconds and still COMPLETES the connect successfully —
no abort to a failed state happens at the claimed 15-second bound. -/
theorem C5_counterexample :
    (connect g0 "s" spec0 exOracleSlow).success = true
    ∧ (connect g0 "s" spec0 exOracleSlow).state.connected = true
    ∧ (connect g0 "s" spec0 exOracleSlow).elapsed = 39
    ∧ ¬ (connect g0 "s" spec0 exOracleSlow).elapsed ≤ 15 := by
  refine ⟨by decide, by decide, by decide, by decide⟩

/-- C5 (amended): there is no overall connect timeout.  The wait of a
`connect` call is bounded only step-by-step: the unbounded launch and session
entry, at most `3 · 10 + 2 · 1 = 32` seconds of handshake, at most 8 seconds
of discovery, plus the teardown exits on the failure path — hence at most
`launch + sessionEntry + 40 + exits` in total; whenever `connect` fails, the
teardown path has run and the returned state holds no process handle, stream,
session or tools; and because the launch step is unbounded, for every time
budget `m` there is a run that exceeds `m` yet still connects (so no constant
overall bound, 15 seconds included, exists). -/
theorem C5_theorem (getenv : List Char → Option (List Char))
    (server_name : String) (spec : ServerSpec) (o : ConnectOracle) :
    (connect getenv server_name spec o).elapsed
      ≤ o.launch.dur + o.sessionEnter.dur + 40 + o.sessionExitDur + o.stdioExitDur
    ∧ ((connect getenv server_name spec o).success = false →
        (connect getenv server_name spec o).state = ConnState.init)
    ∧ (∀ m : Nat, ∃ o' : ConnectOracle,
        (connect getenv server_name spec o').success = true
        ∧ m ≤ (connect getenv server_name spec o').elapsed) := by
  refine ⟨?_, ?_, ?_⟩
  · cases hl : o.launch with
    | err d =>
      simp [connect, hl, disconnect, disconnectDur, Step.dur, ConnState.init]
      omega
    | ok dl u =>
      cases hs : o.sessionEnter with
      | err d2 =>
        simp [connect, hl, hs, disconnect, disconnectDur, Step.dur, ConnState.init]
        omega
      | ok d2 u2 =>
        have hinit : (initWithRetries o).2.1 ≤ 32 :=
          le_trans (initLoopAux_elapsed_le o 3 3 0 0 (by omega)) (by omega)
        rcases h3 : initWithRetries o with ⟨b, di, att⟩
        rw [h3] at hinit
        simp only at hinit
        cases b with
        | false =>
          simp [connect, hl, hs, h3, disconnectDur, Step.dur, ConnState.init]
          omega
        | true =>
          cases hlt : o.listTools with
          | ok d tools =>
            by_cases hd : d ≤ 8 <;>
              simp [connect, hl, hs, h3, hlt, hd, Step.dur] <;> omega
          | err d =>
            have hm : min d 8 ≤ 8 := Nat.min_le_right _ _
            simp [connect, hl, hs, h3, hlt, Step.dur]
            omega
  · intro hfail
    cases hl : o.launch with
    | err d => simp [connect, hl, disconnect, ConnState.init]
    | ok dl u =>
      cases hs : o.sessionEnter with
      | err d2 => simp [connect, hl, hs, disconnect, ConnState.init]
      | ok d2 u2 =>
        rcases h3 : initWithRetries o with ⟨b, di, att⟩
        cases b with
        | false => simp [connect, hl, hs, h3, disconnect, ConnState.init]
        | true =>
          exfalso
          cases hlt : o.listTools with
          | ok d tools =>
            rw [connect.eq_def] at hfail
            simp [hl, hs, h3, hlt] at hfail
          | err d =>
            rw [connect.eq_def] at hfail
            simp [hl, hs, h3, hlt] at hfail
  · intro m
    refine ⟨{ exOracleOk with launch := .ok m () }, ?_, ?_⟩
    · simp [connect, initWithRetries, initLoopAux, initAttemptFails, exOracleOk]
    · simp [connect, initWithRetries, initLoopAux, initAttemptFails,
        initAttemptDur, exOracleOk, Step.dur]

/-- Witness for C5's amended statement: the all-attempts-fail oracle ends
fully torn down within the step-wise bound. -/
theorem C5_theorem_witness :
    (connect g0 "s" spec0 exOracleInitFail).state = ConnState.init
    ∧ (connect g0 "s" spec0 exOracleInitFail).elapsed ≤ 0 + 0 + 40 + 3 + 4 := by
  have h := C5_theorem g0 "s" spec0 exOracleInitFail
  exact ⟨h.2.1 (by decide), h.1⟩

/-! ## C8 — cleanup idempotence and independence -/

/-- A connection that holds no live session, session context or stdio
context (hence no process handle or stream pair). -/
def releasedConn (c : ConnState) : Prop :=
  c.is_connected = false ∧ c.sessionCtx = false ∧ c.stdioCtx = false

/-- `disconnect` always leaves the connection released, whatever the
`__aexit__` calls did. -/
theorem disconnect_released (c : ConnState) : releasedConn (disconnect c) := by
  unfold disconnect releasedConn
  split
  · next h =>
    simp only [Bool.and_eq_true, Bool.not_eq_true'] at h
    obtain ⟨ha, hb, hc⟩ :
        c.connected = false ∧ c.sessionCtx = false ∧ c.stdioCtx = false := by tauto
    exact ⟨by simp [ConnState.is_connected, ha], hb, hc⟩
  · by_cases h1 : c.sessionCtx <;> by_cases h2 : c.stdioCtx <;>
      simp [h1, h2, ConnState.is_connected]

/-- C8: when cleanup actually runs (the done flag was clear), the connection
table and the catalog are empty afterwards, the flag is set, EVERY connection
that was registered ends released — independently of whether any other
connection's teardown erred or was cancelled (the oracle is arbitrary) — and
a second cleanup call is a no-op: it returns the state unchanged and attempts
no disconnect. -/
theorem C8_theorem (st : ManagerState) (o o2 : String → TeardownRun)
    (h : st.cleanup_done = false) :
    (cleanup st o).state.connections = []
    ∧ (cleanup st o).state.all_tools = []
    ∧ (cleanup st o).state.cleanup_done = true
    ∧ (∀ p ∈ (cleanup st o).finalConns, releasedConn p.2)
    ∧ cleanup (cleanup st o).state o2 =
        { state := (cleanup st o).state, finalConns := [], disconnected := [] } := by
  refine ⟨by simp [cleanup, h], by simp [cleanup, h], by simp [cleanup, h], ?_, ?_⟩
  · intro p hp
    simp only [cleanup, h, Bool.false_eq_true, if_false, List.mem_map] at hp
    obtain ⟨q, hq, rfl⟩ := hp
    by_cases hg : cleanupGuard q.2 = true
    · simp only [hg, if_true]
      cases o q.1 with
      | completes => exact disconnect_released q.2
      | cancelledAwait =>
        exact ⟨by simp [forcedClear, ConnState.is_connected], by simp [forcedClear],
          by simp [forcedClear]⟩
    · simp only [hg, if_false]
      simp only [cleanupGuard, Bool.or_eq_true, not_or, Bool.not_eq_true] at hg
      exact ⟨hg.1.1, hg.1.2, hg.2⟩
  · simp [cleanup, h]

/-- Witness for C8 on the one-server manager with an erroring-but-completing
teardown. -/
theorem C8_theorem_witness :
    (cleanup exManager (fun _ => .completes)).state.connections = []
    ∧ (cleanup exManager (fun _ => .completes)).state.all_tools = []
    ∧ cleanup (cleanup exManager (fun _ => .completes)).state (fun _ => .completes) =
        { state := (cleanup exManager (fun _ => .completes)).state
          finalConns := [], disconnected := [] } := by
  have h := C8_theorem exManager (fun _ => .completes) (fun _ => .completes) rfl
  exact ⟨h.1, h.2.1, h.2.2.2.2⟩

/-! ## C10 — the cleanup-done flag is never reset -/

/-- The connect-all loop never touches the `_cleanup_done` flag. -/
theorem connectAllLoop_cleanup_done (getenv : List Char → Option (List Char)) :
    ∀ (config : List (String × ServerSpec × ConnectOracle)) (st : ManagerState)
      (succ : Nat), (connectAllLoop getenv st succ config).1.cleanup_done
        = st.cleanup_done := by
  intro config
  induction config with
  | nil => intro st succ; rfl
  | cons e rest ih =>
    intro st succ
    rcases e with ⟨n, sp, o⟩
    simp only [connectAllLoop]
    rw [ih]
    by_cases hsucc : (connect getenv n sp o).success = true <;> simp [hsucc]

/-- C10: once `_cleanup_done` is set, `connect_to_all_servers` leaves it set
(no operation resets it), so any later `cleanup` returns immediately: the
manager state — including connections registered by a connect-to-all
performed AFTER the first cleanup — is left untouched and no connection is
disconnected. -/
theorem C10_theorem (st : ManagerState) (getenv : List Char → Option (List Char))
    (config : List (String × ServerSpec × ConnectOracle))
    (o : String → TeardownRun) (h : st.cleanup_done = true) :
    (connect_to_all_servers getenv st config).state.cleanup_done = true
    ∧ cleanup st o = { state := st, finalConns := st.connections, disconnected := [] }
    ∧ cleanup (connect_to_all_servers getenv st config).state o =
        { state := (connect_to_all_servers getenv st config).state
          finalConns := (connect_to_all_servers getenv st config).state.connections
          disconnected := [] } := by
  have h1 : (connect_to_all_servers getenv st config).state.cleanup_done = true := by
    cases config with
    | nil => simpa [connect_to_all_servers] using h
    | cons e rest =>
      simpa [connect_to_all_servers, connectAllLoop_cleanup_done] using h
  exact ⟨h1, by simp [cleanup, h], by simp [cleanup, h1]⟩

/-- Witness for C10: after a first cleanup, a reconnect followed by another
cleanup leaves the newly registered connection untouched. -/
theorem C10_theorem_witness :
    cleanup (connect_to_all_servers g0 (cleanup exManager (fun _ => .completes)).state
        [("a", spec0, exOracleOk)]).state (fun _ => .completes) =
      { state := (connect_to_all_servers g0 (cleanup exManager (fun _ => .completes)).state
          [("a", spec0, exOracleOk)]).state
        finalConns := (connect_to_all_servers g0
          (cleanup exManager (fun _ => .completes)).state
          [("a", spec0, exOracleOk)]).state.connections
        disconnected := [] } :=
  (C10_theorem (cleanup exManager (fun _ => .completes)).state g0
    [("a", spec0, exOracleOk)] (fun _ => .completes) rfl).2.2

/-! ## C1 — connect-to-all accounting -/

/-- Whether a config entry's connection attempt succeeds. -/
def connSucceeds (getenv : List Char → Option (List Char))
    (e : String × ServerSpec × ConnectOracle) : Bool :=
  (connect getenv e.1 e.2.1 e.2.2).success

/-- Dict assignment with a fresh key appends the binding. -/
theorem dictSet_fresh {α : Type} (d : List (String × α)) (k : String) (v : α)
    (h : ∀ p ∈ d, p.1 ≠ k) : dictSet d k v = d ++ [(k, v)] := by
  unfold dictSet
  have hany : d.any (fun p => p.1 = k) = false := by
    rw [List.any_eq_false]
    intro p hp
    simpa using h p hp
  simp [hany]

/-- Full characterization of the connect-all loop when the incoming table has
no key in common with the (duplicate-free) config: every spec is attempted
once in order, the successful ones are appended to the table in order, and
the counter advances by the number of successes. -/
theorem connectAllLoop_spec (getenv : List Char → Option (List Char)) :
    ∀ (config : List (String × ServerSpec × ConnectOracle)) (st : ManagerState)
      (succ : Nat),
      (∀ p ∈ st.connections, p.1 ∉ config.map (fun e => e.1)) →
      (config.map (fun e => e.1)).Nodup →
      (connectAllLoop getenv st succ config).1.connections
        = st.connections ++ (config.filter (connSucceeds getenv)).map
            (fun e => (e.1, (connect getenv e.1 e.2.1 e.2.2).state))
      ∧ (connectAllLoop getenv st succ config).2.1
        = succ + (config.filter (connSucceeds getenv)).length
      ∧ (connectAllLoop getenv st succ config).2.2 = config.map (fun e => e.1) := by
  intro config
  induction config with
  | nil => intro st succ h hn; simp [connectAllLoop]
  | cons e rest ih =>
    intro st succ h hn
    rcases e with ⟨n, sp, o⟩
    rw [List.map_cons] at hn
    obtain ⟨hnrest, hnodrest⟩ := List.nodup_cons.mp hn
    have hsplit : ∀ p ∈ st.connections, p.1 ≠ n ∧ p.1 ∉ rest.map (fun e => e.1) := by
      intro p hp
      have hh := h p hp
      rw [List.map_cons, List.mem_cons] at hh
      push_neg at hh
      exact hh
    by_cases hsucc : (connect getenv n sp o).success = true
    · have hset : dictSet st.connections n (connect getenv n sp o).state
          = st.connections ++ [(n, (connect getenv n sp o).state)] :=
        dictSet_fresh _ _ _ (fun p hp => (hsplit p hp).1)
    
      have hih := ih
        { st with
          connections := st.connections ++ [(n, (connect getenv n sp o).state)]
          all_tools := st.all_tools ++ (connect getenv n sp o).state.tools }
        (succ + 1)
        (by
          intro p hp
          rw [List.mem_append] at hp
          rcases hp with hp | hp
          · exact (hsplit p hp).2
          · rw [List.mem_singleton] at hp
            subst hp
            simpa using hnrest)
        hnodrest
      refine ⟨?_, ?_, ?_⟩
      · simp [connectAllLoop, hsucc, hset, hih.1, connSucceeds, List.filter_cons]
      · simp [connectAllLoop, hsucc, hset, hih.2.1, connSucceeds, List.filter_cons]
        omega
      · simp [connectAllLoop, hsucc, hset, hih.2.2]
    · have hih := ih st succ (fun p hp => (hsplit p hp).2) hnodrest
      have hsf : connSucceeds getenv (n, sp, o) = false := by
        simpa [connSucceeds] using hsucc
      refine ⟨?_, ?_, ?_⟩
      · simp [connectAllLoop, hsucc, hih.1, List.filter_cons, hsf]
      · simp [connectAllLoop, hsucc, hih.2.1, List.filter_cons, hsf]
      · simp [connectAllLoop, hsucc, hih.2.2]

/-- C1 (amended): starting from an empty connection table, `connect_to_all`
attempts each configured spec exactly once (failures do not abort the loop),
registers exactly the successful connections — so the internal success count
equals the number of connections registered afterwards — but RETURNS only the
boolean `successful_connections > 0`, not the count. -/
theorem C1_theorem (getenv : List Char → Option (List Char)) (st : ManagerState)
    (config : List (String × ServerSpec × ConnectOracle))
    (hempty : st.connections = [])
    (hnodup : (config.map (fun e => e.1)).Nodup) :
    (connect_to_all_servers getenv st config).attempts = config.map (fun e => e.1)
    ∧ (connect_to_all_servers getenv st config).state.connections
        = (config.filter (connSucceeds getenv)).map
            (fun e => (e.1, (connect getenv e.1 e.2.1 e.2.2).state))
    ∧ (connect_to_all_servers getenv st config).state.connections.length
        = (config.filter (connSucceeds getenv)).length
    ∧ (connect_to_all_servers getenv st config).retVal
        = decide (0 < (config.filter (connSucceeds getenv)).length) := by
  cases config with
  | nil => simp [connect_to_all_servers, hempty]
  | cons e rest =>
    have hspec := connectAllLoop_spec getenv (e :: rest) st 0
      (by simp [hempty]) hnodup
    refine ⟨?_, ?_, ?_, ?_⟩ <;>
      simp [connect_to_all_servers, hspec.1, hspec.2.1, hspec.2.2, hempty]

/-- A two-server config in which both connection attempts succeed. -/
def exConfigTwo : List (String × ServerSpec × ConnectOracle) :=
  [("a", spec0, exOracleOk), ("b", spec0, exOracleOk)]

/-- C1: with two successfully connecting servers, `connect_to_all_servers`
leaves 2 connections registered but returns `True` — and Python's `True`,
read as a number as the claim's "returns the count" requires, is `1`, not
`2`: the operation returns a boolean, not the count of successful
connections. -/
theorem C1_counterexample :
    (connect_to_all_servers g0 ManagerState.init exConfigTwo).retVal = true
    ∧ (connect_to_all_servers g0 ManagerState.init exConfigTwo).state.connections.length = 2
    ∧ pyBoolToInt (connect_to_all_servers g0 ManagerState.init exConfigTwo).retVal ≠ 2 := by
  refine ⟨by decide, by decide, by decide⟩

/-- Witness for C1's amended statement on the two-server config. -/
theorem C1_theorem_witness :
    (connect_to_all_servers g0 ManagerState.init exConfigTwo).attempts = ["a", "b"]
    ∧ (connect_to_all_servers g0 ManagerState.init exConfigTwo).state.connections.length
        = (exConfigTwo.filter (connSucceeds g0)).length := by
  have h := C1_theorem g0 ManagerState.init exConfigTwo rfl (by decide)
  exact ⟨h.1, h.2.2.1⟩
